import Mathlib

/-!
Shallow embedding of `src/esp32s3_reset.c` (the whole repository: a single
`main` that resets an ESP32S3 by toggling the DTR/RTS modem-control lines of
a serial device).

The program is straight-line C.  We embed one run as a pure function from
the command line and an environment (whether `open` succeeds, the device's
initial modem-status word, the garbage initially in the uninitialized
`status` variable, and per-call failure oracles for the `ioctl` calls) to an
exit code together with a trace of observable events (stdout lines, stderr
lines, the `open`, each `ioctl(TIOCMGET)` / `ioctl(TIOCMSET)`, each
`usleep`, and the `close`).

Machine integers: `status` is a C `int` (32-bit).  The status word is a
`Nat`; `status &= ~MASK` is embedded as `land` with `2 ^ 32 - 1 - MASK`,
the unsigned 32-bit bit pattern of `~MASK`.
-/

namespace ESP32Reset

/-- Linux modem-line bitmask for DTR (`TIOCM_DTR = 0x002`). -/
def TIOCM_DTR : Nat := 2

/-- Linux modem-line bitmask for RTS (`TIOCM_RTS = 0x004`). -/
def TIOCM_RTS : Nat := 4

/-- The 32-bit bit pattern of the C expression `~m` for a mask `m < 2^32`,
so that `status & ~m` becomes `status &&& notMask m`. -/
def notMask (m : Nat) : Nat := 2 ^ 32 - 1 - m

/-- Observable events of one run of the program. -/
inductive Event where
  | out (s : String)
  | err (s : String)
  | openDev (path : String)
  | tiocmget (v : Nat)
  | tiocmset (v : Nat)
  | sleep (us : Nat)
  | closeDev
  deriving DecidableEq, Repr

/-- The environment a run executes in: whether `open(argv[1], ...)` succeeds,
the OS error text `perror` would append on failure, the device's modem-status
word before the run, the garbage value initially held by the uninitialized
local `status`, and failure oracles for the i-th `TIOCMGET` / `TIOCMSET`
call (the source never checks these calls' results). -/
structure Env where
  openOk : Bool
  errReason : String
  initStatus : Nat
  junk : Nat
  getFails : Nat → Bool
  setFails : Nat → Bool

/-- Result of a run: the value returned from `main` and the event trace. -/
structure RunResult where
  exitCode : Int
  trace : List Event
  deriving DecidableEq, Repr

/-- The three usage lines printed to stdout on a wrong argument count
(lines 21–23 of the source). -/
def usageTrace (prog : String) : List Event :=
  [ .out ("Usage: " ++ prog ++ " <serial_device> [bootloader]\n"),
    .out ("Example: " ++ prog ++ " /dev/ttyCH343USB0          # Normal boot\n"),
    .out ("Example: " ++ prog ++ " /dev/ttyCH343USB0 bootloader # Bootloader mode\n") ]

/-- `argc == 3 && strcmp(argv[2], "bootloader") == 0` (line 27); `args` are
the arguments beyond the program name, so `argv[2]` is `args.getD 1 ""`. -/
def bootloaderArg (args : List String) : Bool :=
  1 + args.length == 3 && args.getD 1 "" == "bootloader"

/-- Step 1 (lines 53–58): clear DTR; set RTS in bootloader mode, else clear
RTS. -/
def step1Transform (bootloader_mode : Bool) (status : Nat) : Nat :=
  let s := status &&& notMask TIOCM_DTR
  if bootloader_mode then s ||| TIOCM_RTS else s &&& notMask TIOCM_RTS

/-- Step 2 (line 65): set DTR. -/
def step2Transform (status : Nat) : Nat := status ||| TIOCM_DTR

/-- Step 3 (line 72): clear DTR. -/
def step3Transform (status : Nat) : Nat := status &&& notMask TIOCM_DTR

/-- Value held by the local `status` after the i-th `ioctl(fd, TIOCMGET,
&status)`: the device word `dev` on success, the variable's previous
content on failure (the call's result is never checked). -/
def tiocmgetResult (env : Env) (i : Nat) (dev status : Nat) : Nat :=
  if env.getFails i then status else dev

/-- Device word after the i-th `ioctl(fd, TIOCMSET, &status)` requesting
`w`: `w` on success, the previous device word on failure. -/
def tiocmsetResult (env : Env) (i : Nat) (dev w : Nat) : Nat :=
  if env.setFails i then dev else w

/-- The embedding of `main` (src/esp32s3_reset.c, lines 14–85).  `prog` is
`argv[0]`, `args` the arguments beyond it, so `argc = 1 + args.length`. -/
def run (prog : String) (args : List String) (env : Env) : RunResult :=
  let argc := 1 + args.length
  if argc < 2 || argc > 3 then
    { exitCode := -1, trace := usageTrace prog }
  else
    let bootloader_mode := bootloaderArg args
    let path := args.getD 0 ""
    if env.openOk then
      let modeLine : Event :=
        if bootloader_mode then
          .out "Resetting ESP32S3 into bootloader mode via RTS/DTR control...\n"
        else
          .out "Resetting ESP32S3 into normal mode via RTS/DTR control...\n"
      let r1 := tiocmgetResult env 0 env.initStatus env.junk
      let w1 := step1Transform bootloader_mode r1
      let d1 := tiocmsetResult env 0 env.initStatus w1
      let r2 := tiocmgetResult env 1 d1 w1
      let w2 := step2Transform r2
      let d2 := tiocmsetResult env 1 d1 w2
      let r3 := tiocmgetResult env 2 d2 w2
      let w3 := step3Transform r3
      let finalLine : Event :=
        if bootloader_mode then
          .out "ESP32S3 should now be in bootloader mode for flashing.\n"
        else
          .out "ESP32S3 should now be running in normal mode.\n"
      { exitCode := 0,
        trace := [.openDev path, modeLine,
          .out "Step 1: Setting up reset sequence...\n",
          .tiocmget r1, .tiocmset w1, .sleep 50000,
          .out "Step 2: Pulling EN low to reset...\n",
          .tiocmget r2, .tiocmset w2, .sleep 100000,
          .out "Step 3: Releasing EN to start...\n",
          .tiocmget r3, .tiocmset w3, .sleep 200000,
          .out "Reset sequence completed!\n", finalLine, .closeDev] }
    else
      { exitCode := -1,
        trace := [.openDev path,
          .err ("Failed to open serial device: " ++ env.errReason)] }

/-- Whether an event is one of the two modem-line `ioctl` calls. -/
def Event.isIoctl : Event → Bool
  | .tiocmget _ => true
  | .tiocmset _ => true
  | _ => false

/-- The sequence of status words requested by `TIOCMSET` calls, in order. -/
def setWrites (t : List Event) : List Nat :=
  t.filterMap fun e => match e with | .tiocmset w => some w | _ => none

/-- The sequence of `usleep` durations (microseconds), in order. -/
def sleeps (t : List Event) : List Nat :=
  t.filterMap fun e => match e with | .sleep us => some us | _ => none

/-- The DTR bit of a status word (`TIOCM_DTR = 0x002` is bit 1). -/
def dtrBit (w : Nat) : Bool := w.testBit 1

/-- The RTS bit of a status word (`TIOCM_RTS = 0x004` is bit 2). -/
def rtsBit (w : Nat) : Bool := w.testBit 2

/-- Number of modem-line `ioctl` calls in a trace. -/
def ioctlCalls (t : List Event) : Nat := (t.filter Event.isIoctl).length

/-- Number of `close` calls in a trace. -/
def closeCount (t : List Event) : Nat :=
  (t.filter fun e => match e with | Event.closeDev => true | _ => false).length

/-- Whether an event is a `TIOCMSET` line write. -/
def Event.isSet : Event → Bool
  | .tiocmset _ => true
  | _ => false

/-- The subsequence of line writes and suspensions, with each write's word
forgotten: a `TIOCMSET` becomes `none` and a `usleep` of `us` microseconds
becomes `some us`.  This records where each suspension sits relative to the
writes. -/
def setSleepShape (t : List Event) : List (Option Nat) :=
  t.filterMap fun e => match e with
    | .tiocmset _ => some none
    | .sleep us => some (some us)
    | _ => none

/-- The events strictly between the first `TIOCMSET` and the last `TIOCMSET`
of a trace. -/
def betweenFirstLastSet (t : List Event) : List Event :=
  let t1 := (t.dropWhile fun e => !(Event.isSet e)).drop 1
  ((t1.reverse.dropWhile fun e => !(Event.isSet e)).drop 1).reverse

/-- An environment where the open succeeds and every `ioctl` succeeds. -/
def envOk : Env :=
  { openOk := true, errReason := "", initStatus := 0, junk := 0,
    getFails := fun _ => false, setFails := fun _ => false }

/-- An environment where the open fails with `ENOENT`. -/
def envNoDev : Env :=
  { openOk := false, errReason := "No such file or directory", initStatus := 0,
    junk := 0, getFails := fun _ => false, setFails := fun _ => false }

/-- Like `envOk`, but the device starts with both DTR and RTS raised
(status word `0b110 = 6`). -/
def envStatus6 : Env := { envOk with initStatus := 6 }

/-- Like `envOk`, but every `ioctl` call fails. -/
def envFlaky : Env :=
  { envOk with getFails := fun _ => true, setFails := fun _ => true }

theorem notMask_DTR_testBit_one : (notMask TIOCM_DTR).testBit 1 = false := by decide

theorem notMask_DTR_testBit_two : (notMask TIOCM_DTR).testBit 2 = true := by decide

theorem notMask_RTS_testBit_one : (notMask TIOCM_RTS).testBit 1 = true := by decide

theorem notMask_RTS_testBit_two : (notMask TIOCM_RTS).testBit 2 = false := by decide

theorem TIOCM_DTR_testBit_one : TIOCM_DTR.testBit 1 = true := by decide

theorem TIOCM_DTR_testBit_two : TIOCM_DTR.testBit 2 = false := by decide

theorem TIOCM_RTS_testBit_one : TIOCM_RTS.testBit 1 = false := by decide

theorem TIOCM_RTS_testBit_two : TIOCM_RTS.testBit 2 = true := by decide

theorem TIOCM_DTR_testBit_ne (i : Nat) (h : i ≠ 1) : TIOCM_DTR.testBit i = false := by
  match i, h with
  | 0, _ => decide
  | n + 2, _ =>
    exact Nat.testBit_eq_false_of_lt (lt_of_lt_of_le
      (show TIOCM_DTR < 2 ^ 2 by decide)
      (Nat.pow_le_pow_right (by norm_num) (by omega)))

theorem TIOCM_RTS_testBit_ne (i : Nat) (h : i ≠ 2) : TIOCM_RTS.testBit i = false := by
  match i, h with
  | 0, _ => decide
  | 1, _ => decide
  | n + 3, _ =>
    exact Nat.testBit_eq_false_of_lt (lt_of_lt_of_le
      (show TIOCM_RTS < 2 ^ 3 by decide)
      (Nat.pow_le_pow_right (by norm_num) (by omega)))

theorem notMask_DTR_testBit : ∀ i < 32, i ≠ 1 → (notMask TIOCM_DTR).testBit i = true := by
  decide

theorem notMask_RTS_testBit : ∀ i < 32, i ≠ 2 → (notMask TIOCM_RTS).testBit i = true := by
  decide

/-- C1: for a run with a valid (openable) device path and no second argument,
when every read of the status word returns the value most recently written
(all `ioctl` calls succeed), the status words written to the device are
exactly three, with (DTR, RTS) bit values (0,0), (1,0), (0,0) — whatever the
initial device status word is. -/
theorem C1_normal_write_sequence (prog path : String) (env : Env)
    (hopen : env.openOk = true)
    (hg : ∀ i, env.getFails i = false) (hs : ∀ i, env.setFails i = false) :
    (setWrites (run prog [path] env).trace).map (fun w => (dtrBit w, rtsBit w))
      = [(false, false), (true, false), (false, false)] := by
  simp [run, hopen, hg, hs, tiocmgetResult, tiocmsetResult, setWrites, bootloaderArg,
    step1Transform, step2Transform, step3Transform, dtrBit, rtsBit,
    Nat.testBit_land, Nat.testBit_lor, notMask_DTR_testBit_one, notMask_DTR_testBit_two,
    notMask_RTS_testBit_one, notMask_RTS_testBit_two, TIOCM_DTR_testBit_one,
    TIOCM_DTR_testBit_two, TIOCM_RTS_testBit_one, TIOCM_RTS_testBit_two]

theorem C1_normal_write_sequence_witness :
    (setWrites (run "reset" ["/dev/ttyUSB0"] envOk).trace).map
        (fun w => (dtrBit w, rtsBit w))
      = [(false, false), (true, false), (false, false)] :=
  C1_normal_write_sequence "reset" "/dev/ttyUSB0" envOk rfl
    (fun _ => rfl) (fun _ => rfl)

/-- C2: for a run with a valid device path and second argument exactly
`bootloader`, under the same read-returns-last-write assumption, the status
words written are exactly three, with (DTR, RTS) bits (0,1), (1,1), (0,1). -/
theorem C2_bootloader_write_sequence (prog path : String) (env : Env)
    (hopen : env.openOk = true)
    (hg : ∀ i, env.getFails i = false) (hs : ∀ i, env.setFails i = false) :
    (setWrites (run prog [path, "bootloader"] env).trace).map
        (fun w => (dtrBit w, rtsBit w))
      = [(false, true), (true, true), (false, true)] := by
  simp [run, hopen, hg, hs, tiocmgetResult, tiocmsetResult, setWrites, bootloaderArg,
    step1Transform, step2Transform, step3Transform, dtrBit, rtsBit,
    Nat.testBit_land, Nat.testBit_lor, notMask_DTR_testBit_one, notMask_DTR_testBit_two,
    notMask_RTS_testBit_one, notMask_RTS_testBit_two, TIOCM_DTR_testBit_one,
    TIOCM_DTR_testBit_two, TIOCM_RTS_testBit_one, TIOCM_RTS_testBit_two]

theorem C2_bootloader_write_sequence_witness :
    (setWrites (run "reset" ["/dev/ttyUSB0", "bootloader"] envOk).trace).map
        (fun w => (dtrBit w, rtsBit w))
      = [(false, true), (true, true), (false, true)] :=
  C2_bootloader_write_sequence "reset" "/dev/ttyUSB0" envOk rfl
    (fun _ => rfl) (fun _ => rfl)

/-- C3 counterexample: an invocation with exactly 1 argument beyond the
program name (a device path) does not print usage and does not return -1:
it opens the device and returns 0.  So the claim fails for the "1 argument"
case. -/
theorem C3_one_arg_counterexample :
    (run "reset" ["/dev/ttyUSB0"] envOk).exitCode = 0 ∧
    Event.openDev "/dev/ttyUSB0" ∈ (run "reset" ["/dev/ttyUSB0"] envOk).trace ∧
    (run "reset" ["/dev/ttyUSB0"] envOk).trace ≠ usageTrace "reset" := by
  decide

/-- C3 (amended): for every invocation with 0 or at least 3 arguments beyond
the program name, the program prints the usage message to standard output and
returns -1, without opening any device and with no side effect other than
those stdout lines. -/
theorem C3_usage_on_bad_arg_count (prog : String) (args : List String) (env : Env)
    (h : args.length = 0 ∨ 3 ≤ args.length) :
    (run prog args env).exitCode = -1 ∧
    (run prog args env).trace = usageTrace prog ∧
    ∀ e ∈ (run prog args env).trace, ∃ s, e = Event.out s := by
  have hc : (1 + args.length < 2 || 1 + args.length > 3) = true := by
    rcases h with h | h
    · simp [h]
    · simp
      omega
  refine ⟨?_, ?_, ?_⟩ <;> simp [run, hc, usageTrace]

theorem C3_usage_on_bad_arg_count_witness :
    (run "reset" [] envOk).exitCode = -1 ∧
    (run "reset" [] envOk).trace = usageTrace "reset" :=
  ⟨(C3_usage_on_bad_arg_count "reset" [] envOk (Or.inl rfl)).1,
   (C3_usage_on_bad_arg_count "reset" [] envOk (Or.inl rfl)).2.1⟩

/-- C4: for every invocation whose argument count is accepted (1 or 2
arguments beyond the program name) but whose device path cannot be opened,
the program writes a descriptive message including the OS-reported reason to
standard error, returns -1, and performs zero modem-line `ioctl` calls. -/
theorem C4_open_failure (prog path : String) (rest : List String) (env : Env)
    (hlen : rest.length ≤ 1) (hopen : env.openOk = false) :
    (run prog (path :: rest) env).exitCode = -1 ∧
    (run prog (path :: rest) env).trace =
      [Event.openDev path,
       Event.err ("Failed to open serial device: " ++ env.errReason)] ∧
    ioctlCalls (run prog (path :: rest) env).trace = 0 := by
  match rest, hlen with
  | [], _ =>
    refine ⟨?_, ?_, ?_⟩ <;> simp [run, hopen, ioctlCalls, Event.isIoctl]
  | [a], _ =>
    refine ⟨?_, ?_, ?_⟩ <;> simp [run, hopen, ioctlCalls, Event.isIoctl]

theorem C4_open_failure_witness :
    (run "reset" ["/dev/missing"] envNoDev).exitCode = -1 ∧
    (run "reset" ["/dev/missing"] envNoDev).trace =
      [Event.openDev "/dev/missing",
       Event.err ("Failed to open serial device: " ++ envNoDev.errReason)] ∧
    ioctlCalls (run "reset" ["/dev/missing"] envNoDev).trace = 0 :=
  C4_open_failure "reset" "/dev/missing" [] envNoDev (by decide) rfl

/-- C5 counterexample: with the device initially reporting status word 6
(DTR = 1, RTS = 1) and no `bootloader` argument, the first read-modify-write
reads 6 and writes back 0, which differs from the value just read in BOTH the
DTR bit and the RTS bit — not in exactly one named line's bit. -/
theorem C5_step1_two_bits_counterexample :
    ((run "reset" ["/dev/ttyUSB0"] envStatus6).trace.filter Event.isIoctl).take 2
      = [Event.tiocmget 6, Event.tiocmset 0] ∧
    dtrBit 0 ≠ dtrBit 6 ∧ rtsBit 0 ≠ rtsBit 6 := by
  decide

/-- C5 (amended): every mutation of the status word is a read-modify-write —
the `ioctl` subtrace is get, set, get, set, get, set, each written word being
the step transform of the word just read (and, with reliable calls, each
later read returns the word just written).  The step-2 and step-3 writes
differ from the value read only in the DTR bit, leaving RTS and every other
bit as read; the step-1 write may change both the DTR and the RTS bit but no
other bit. -/
theorem C5_read_modify_write (prog path : String) (rest : List String) (env : Env)
    (hlen : rest.length ≤ 1) (hopen : env.openOk = true)
    (hg : ∀ i, env.getFails i = false) (hs : ∀ i, env.setFails i = false) :
    (run prog (path :: rest) env).trace.filter Event.isIoctl =
      [Event.tiocmget env.initStatus,
       Event.tiocmset (step1Transform (bootloaderArg (path :: rest)) env.initStatus),
       Event.tiocmget (step1Transform (bootloaderArg (path :: rest)) env.initStatus),
       Event.tiocmset (step2Transform
         (step1Transform (bootloaderArg (path :: rest)) env.initStatus)),
       Event.tiocmget (step2Transform
         (step1Transform (bootloaderArg (path :: rest)) env.initStatus)),
       Event.tiocmset (step3Transform (step2Transform
         (step1Transform (bootloaderArg (path :: rest)) env.initStatus)))] ∧
    (∀ s i, i ≠ 1 → (step2Transform s).testBit i = s.testBit i) ∧
    (∀ s i, i < 32 → i ≠ 1 → (step3Transform s).testBit i = s.testBit i) ∧
    (∀ b s i, i < 32 → i ≠ 1 → i ≠ 2 →
      (step1Transform b s).testBit i = s.testBit i) := by
  refine ⟨?_, ?_, ?_, ?_⟩
  · match rest, hlen with
    | [], _ =>
      by_cases hb : bootloaderArg [path] = true <;>
        simp [run, hopen, hg, hs, hb, tiocmgetResult, tiocmsetResult, Event.isIoctl]
    | [a], _ =>
      by_cases hb : bootloaderArg [path, a] = true <;>
        simp [run, hopen, hg, hs, hb, tiocmgetResult, tiocmsetResult, Event.isIoctl]
  · intro s i hi
    simp [step2Transform, Nat.testBit_lor, TIOCM_DTR_testBit_ne i hi]
  · intro s i h1 h2
    simp [step3Transform, Nat.testBit_land, notMask_DTR_testBit i h1 h2]
  · intro b s i h1 h2 h3
    cases b <;>
      simp [step1Transform, Nat.testBit_land, Nat.testBit_lor,
        notMask_DTR_testBit i h1 h2, notMask_RTS_testBit i h1 h3,
        TIOCM_RTS_testBit_ne i h3]

theorem C5_read_modify_write_witness :
    (run "reset" ["/dev/ttyUSB0"] envOk).trace.filter Event.isIoctl =
      [Event.tiocmget envOk.initStatus,
       Event.tiocmset (step1Transform (bootloaderArg ["/dev/ttyUSB0"]) envOk.initStatus),
       Event.tiocmget (step1Transform (bootloaderArg ["/dev/ttyUSB0"]) envOk.initStatus),
       Event.tiocmset (step2Transform
         (step1Transform (bootloaderArg ["/dev/ttyUSB0"]) envOk.initStatus)),
       Event.tiocmget (step2Transform
         (step1Transform (bootloaderArg ["/dev/ttyUSB0"]) envOk.initStatus)),
       Event.tiocmset (step3Transform (step2Transform
         (step1Transform (bootloaderArg ["/dev/ttyUSB0"]) envOk.initStatus)))] :=
  (C5_read_modify_write "reset" "/dev/ttyUSB0" [] envOk (by decide) rfl
    (fun _ => rfl) (fun _ => rfl)).1

/-- C6 counterexample: on a concrete successful run, the suspension lying
between the first and the third (last) line write is 50 ms + 100 ms
= 150000 µs — the 200 ms sleep comes only after the third write — so the
elapsed time between the first and third writes is not at least 350 ms of
suspension. -/
theorem C6_between_writes_counterexample :
    (sleeps (betweenFirstLastSet (run "reset" ["/dev/ttyUSB0"] envOk).trace)).sum
      = 150 * 1000 ∧
    ¬ 350 * 1000 ≤
      (sleeps (betweenFirstLastSet (run "reset" ["/dev/ttyUSB0"] envOk).trace)).sum := by
  decide

/-- C6 (amended): on every run that gets past the open (whatever the `ioctl`
outcomes), the program suspends exactly three times, for the fixed,
non-configurable durations 50 ms directly after the first line write, 100 ms
directly after the second, and 200 ms directly after the third — so the
suspension between the first and third line writes is 150 ms (50+100), and
the run's total suspension is 350 ms (50+100+200). -/
theorem C6_sleep_positions (prog path : String) (rest : List String) (env : Env)
    (hlen : rest.length ≤ 1) (hopen : env.openOk = true) :
    setSleepShape (run prog (path :: rest) env).trace =
      [none, some 50000, none, some 100000, none, some 200000] ∧
    sleeps (run prog (path :: rest) env).trace = [50000, 100000, 200000] ∧
    (sleeps (betweenFirstLastSet (run prog (path :: rest) env).trace)).sum
      = 150 * 1000 ∧
    (sleeps (run prog (path :: rest) env).trace).sum = 350 * 1000 := by
  refine ⟨?_, ?_, ?_, ?_⟩ <;>
  · match rest, hlen with
    | [], _ =>
      by_cases hb : bootloaderArg [path] = true <;>
        simp [run, hopen, hb, setSleepShape, sleeps, betweenFirstLastSet, Event.isSet]
    | [a], _ =>
      by_cases hb : bootloaderArg [path, a] = true <;>
        simp [run, hopen, hb, setSleepShape, sleeps, betweenFirstLastSet, Event.isSet]

theorem C6_sleep_positions_witness :
    setSleepShape (run "reset" ["/dev/ttyUSB0"] envOk).trace =
      [none, some 50000, none, some 100000, none, some 200000] ∧
    sleeps (run "reset" ["/dev/ttyUSB0"] envOk).trace = [50000, 100000, 200000] ∧
    (sleeps (betweenFirstLastSet (run "reset" ["/dev/ttyUSB0"] envOk).trace)).sum
      = 150 * 1000 ∧
    (sleeps (run "reset" ["/dev/ttyUSB0"] envOk).trace).sum = 350 * 1000 :=
  C6_sleep_positions "reset" "/dev/ttyUSB0" [] envOk (by decide) rfl

/-- C7: the value returned from `main` is 0 exactly when the argument count
is accepted and the open succeeds, and -1 in every other case (wrong argument
count or open failure); no other value is ever returned. -/
theorem C7_exit_codes (prog : String) (args : List String) (env : Env) :
    (run prog args env).exitCode =
      if (1 ≤ args.length ∧ args.length ≤ 2) ∧ env.openOk = true then 0 else -1 := by
  by_cases h1 : 1 ≤ args.length ∧ args.length ≤ 2
  · have hc : (1 + args.length < 2 || 1 + args.length > 3) = false := by
      simp; omega
    by_cases h2 : env.openOk = true
    · simp [run, hc, h1, h2]
    · simp at h2
      simp [run, hc, h1, h2]
  · have hc : (1 + args.length < 2 || 1 + args.length > 3) = true := by
      simp; omega
    simp [run, hc, h1]

/-- C8: the results of the six modem-line `ioctl` calls are never inspected:
whenever the open succeeds, whatever subset of the six calls the environment
makes fail, all three steps run (all six calls are issued), the completion
message is printed, and the run returns 0. -/
theorem C8_ioctl_failures_ignored (prog path : String) (rest : List String)
    (env : Env) (hlen : rest.length ≤ 1) (hopen : env.openOk = true) :
    (run prog (path :: rest) env).exitCode = 0 ∧
    ioctlCalls (run prog (path :: rest) env).trace = 6 ∧
    Event.out "Reset sequence completed!\n" ∈ (run prog (path :: rest) env).trace := by
  refine ⟨?_, ?_, ?_⟩ <;>
  · match rest, hlen with
    | [], _ =>
      by_cases hb : bootloaderArg [path] = true <;>
        simp [run, hopen, hb, ioctlCalls, Event.isIoctl]
    | [a], _ =>
      by_cases hb : bootloaderArg [path, a] = true <;>
        simp [run, hopen, hb, ioctlCalls, Event.isIoctl]

theorem C8_ioctl_failures_ignored_witness :
    (run "reset" ["/dev/ttyUSB0"] envFlaky).exitCode = 0 ∧
    ioctlCalls (run "reset" ["/dev/ttyUSB0"] envFlaky).trace = 6 ∧
    Event.out "Reset sequence completed!\n" ∈
      (run "reset" ["/dev/ttyUSB0"] envFlaky).trace :=
  C8_ioctl_failures_ignored "reset" "/dev/ttyUSB0" [] envFlaky (by decide) rfl

/-- C9: the trace contains exactly one `close` when the open succeeded (on
the one exit path past it), and none when the open failed or was never
attempted. -/
theorem C9_close_exactly_once (prog : String) (args : List String) (env : Env) :
    closeCount (run prog args env).trace =
      if (1 ≤ args.length ∧ args.length ≤ 2) ∧ env.openOk = true then 1 else 0 := by
  by_cases h1 : 1 ≤ args.length ∧ args.length ≤ 2
  · have hc : (1 + args.length < 2 || 1 + args.length > 3) = false := by
      simp; omega
    by_cases h2 : env.openOk = true
    · by_cases hb : bootloaderArg args = true <;>
        simp [run, hc, h1, h2, hb, closeCount, usageTrace]
    · simp at h2
      simp [run, hc, h1, h2, closeCount, usageTrace]
  · have hc : (1 + args.length < 2 || 1 + args.length > 3) = true := by
      simp; omega
    simp [run, hc, h1, closeCount, usageTrace]

/-- C10: with exactly two arguments beyond the program name whose second is
any string other than `bootloader`, the run is identical — exit code and full
event trace — to the normal-mode run on the first argument alone, and in
particular prints no usage message. -/
theorem C10_second_arg_ignored (prog dev x : String) (env : Env)
    (hx : x ≠ "bootloader") :
    run prog [dev, x] env = run prog [dev] env ∧
    (run prog [dev, x] env).trace ≠ usageTrace prog := by
  have hb : (x == "bootloader") = false := by
    simp [hx]
  constructor
  · simp [run, bootloaderArg, hb]
  · by_cases h2 : env.openOk = true <;>
      simp [run, bootloaderArg, hb, h2, usageTrace]

theorem C10_second_arg_ignored_witness :
    run "reset" ["/dev/ttyUSB0", "normal"] envOk = run "reset" ["/dev/ttyUSB0"] envOk ∧
    (run "reset" ["/dev/ttyUSB0", "normal"] envOk).trace ≠ usageTrace "reset" :=
  C10_second_arg_ignored "reset" "/dev/ttyUSB0" "normal" envOk (by decide)

end ESP32Reset
